import Mathlib

/-!
Shallow embedding of the `InferenceHTTPClient` protocol-translation layer
(`clients/http/client.py`): session state, error-translation boundary
(`wrap_errors`), legacy- and new-mode request builders, response
normalisation, result unwrapping, registry operations and the streaming
adapter.  External collaborators (input encoder, visualisation decoders,
the network) are passed in as explicit parameters; HTTP responses are
explicit values.
-/

namespace Client

/-- JSON documents, as produced by `response.json()`.  `null` doubles as
Python's `None` (which is what the `json` library parses JSON null to). -/
inductive Json where
  | null : Json
  | str : String → Json
  | obj : List (String × Json) → Json

/-- Python `x is None` test on a JSON value. -/
def Json.isNull : Json → Bool
  | .null => true
  | _ => false

/-- Whether a JSON value is a dict (`.get` / key assignment are only valid
on these; Python raises AttributeError otherwise). -/
def Json.isObj : Json → Bool
  | .obj _ => true
  | _ => false

/-- Association lookup in a JSON object's field list (Python dict keys are
unique, so first match is the match). -/
def jsonLookup : List (String × Json) → String → Option Json
  | [], _ => none
  | (k, v) :: rest, key => if k = key then some v else jsonLookup rest key

/-- Python dict assignment `d[key] = v`: replaces the existing entry in
place (insertion order preserved), appends when the key is new. -/
def jsonSetKey : List (String × Json) → String → Json → List (String × Json)
  | [], key, v => [(key, v)]
  | (k, old) :: rest, key, v =>
      if k = key then (key, v) :: rest else (k, old) :: jsonSetKey rest key v

/-- Python `a or b` on `Optional[str]` values: `None` and the empty string
are falsy, anything else is truthy. -/
def pyOr (a b : Option String) : Option String :=
  match a with
  | some s => if s = "" then b else some s
  | none => b

/-- Python `str()` / f-string interpolation of an `Optional[str]`. -/
def pyStr : Option String → String
  | none => "None"
  | some s => s

/-- Split a character list at every occurrence of `sep` (occurrences are
delimiters: leading, trailing and adjacent separators produce empty
groups, exactly like Python's `str.split(sep)`). -/
def splitOnChar (sep : Char) : List Char → List (List Char)
  | [] => [[]]
  | c :: rest =>
      let groups := splitOnChar sep rest
      if c = sep then [] :: groups
      else
        match groups with
        | g :: gs => (c :: g) :: gs
        | [] => [[c]]

/-- Python `s.split(sep)` for a single-character separator (the source
only ever splits on `"/"`). -/
def py_split (s : String) (sep : Char) : List String :=
  (splitOnChar sep s.toList).map (fun cs => String.mk cs)

/-- `needle` occurs as a contiguous substring of the character list. -/
def strIn : List Char → List Char → Bool
  | needle, [] => List.isPrefixOf needle []
  | needle, h :: t => List.isPrefixOf needle (h :: t) || strIn needle t

/-- Python `needle in haystack` on strings: substring containment. -/
def py_in_str (needle haystack : String) : Bool :=
  strIn needle.toList haystack.toList

/-- `ModelType` enumeration (`clients/http/entities.py` collaborator):
the three vision task categories the client knows. -/
inductive ModelType where
  | objectDetection : ModelType
  | classification : ModelType
  | instanceSegmentation : ModelType
deriving DecidableEq, Repr

/-- `HTTPClientMode` enumeration: which protocol generation the client
speaks. -/
inductive HTTPClientMode where
  | legacy : HTTPClientMode
  | new : HTTPClientMode
deriving DecidableEq, Repr

/-- The slice of `InferenceConfiguration` this core reads directly.  The
remaining options only flow into the opaque call-parameter maps
(`to_legacy_call_parameters` / `to_api_call_parameters`), which no claim
inspects, so they are not modelled field by field. -/
structure InferenceConfiguration where
  output_visualisation_format : String
deriving DecidableEq, Repr

/-- Session state of `InferenceHTTPClient.__init__`: server address,
credential, configuration, protocol mode, default model category
(initially OBJECT_DETECTION) and optional default model identifier
(initially None). -/
structure ClientState where
  api_url : String
  api_key : String
  inference_configuration : InferenceConfiguration
  client_mode : HTTPClientMode
  model_type : ModelType
  selected_model : Option String
deriving DecidableEq, Repr

/-- An HTTP response as the client observes it: status code, the
`Content-Type` header (`headers.get` yields `None` when absent), the raw
body (`.text` / `.content`), the parsed JSON body (`.json()`), and the
verdict of the `response_contains_jpeg_image` collaborator. -/
structure HTTPResponse where
  status_code : Nat
  content_type : Option String
  text : String
  content : String
  json : Json
  content_is_jpeg : Bool

/-- The exceptions that can escape the client's call surface:
`requests.HTTPError` / `ConnectionError` (transport level), the typed
taxonomy of `clients/http/errors.py` (`HTTPCallErrorError`,
`HTTPClientError`, `InvalidModelIdentifier`), and the untyped Python
builtins the code can hit (`AttributeError`, `TypeError`). -/
inductive PyError where
  | httpError : HTTPResponse → PyError
  | connectionError : String → PyError
  | httpCallErrorError : String → Nat → Json → PyError
  | httpClientError : String → PyError
  | invalidModelIdentifier : String → PyError
  | attributeError : String → PyError
  | typeError : String → PyError

/-- Outcome of one network round trip: the transport either fails
(`requests.ConnectionError`) or delivers a response. -/
inductive NetworkOutcome where
  | connectionFailure : String → NetworkOutcome
  | response : HTTPResponse → NetworkOutcome

/-- `requests.Response.raise_for_status` (external library): raises
`HTTPError` exactly for 4xx and 5xx status codes. -/
def raise_for_status (r : HTTPResponse) : Except PyError Unit :=
  if 400 ≤ r.status_code ∧ r.status_code < 600 then
    Except.error (PyError.httpError r)
  else
    Except.ok ()

/-- `str(error)` for the `HTTPError` raised by `raise_for_status`
(external library; the URL portion of the real message is elided since
nothing in the client reads it). -/
def http_error_description (r : HTTPResponse) : String :=
  if r.status_code < 500 then
    toString r.status_code ++ " Client Error"
  else
    toString r.status_code ++ " Server Error"

/-- Python `dict.get(key)` on a JSON value: on a dict, the entry's value
(`null`, i.e. `None`, when absent); on anything else Python raises
`AttributeError`. -/
def pyDictGet (j : Json) (key : String) : Except PyError Json :=
  match j with
  | .obj fields => Except.ok ((jsonLookup fields key).getD Json.null)
  | _ => Except.error (PyError.attributeError "object has no attribute get")

/-- The `wrap_errors` decorator: re-raises an `HTTPError` as
`HTTPCallErrorError` (message from the JSON `message` field when the
`Content-Type` header contains `application/json`, from the raw body text
otherwise; a missing `Content-Type` header makes the membership test
itself raise `TypeError`), re-raises a `ConnectionError` as
`HTTPClientError`, and passes everything else through untouched. -/
def wrap_errors {α : Type} (result : Except PyError α) : Except PyError α :=
  match result with
  | Except.error (PyError.httpError r) =>
      match r.content_type with
      | none => Except.error (PyError.typeError "argument of type NoneType is not iterable")
      | some ct =>
          if py_in_str "application/json" ct then
            match pyDictGet r.json "message" with
            | Except.ok api_message =>
                Except.error (PyError.httpCallErrorError
                  (http_error_description r) r.status_code api_message)
            | Except.error e => Except.error e
          else
            Except.error (PyError.httpCallErrorError
              (http_error_description r) r.status_code (Json.str r.text))
  | Except.error (PyError.connectionError msg) =>
      Except.error (PyError.httpClientError ("Error with server connection: " ++ msg))
  | other => other

/-- `load_model` without its decorator: POST `/model/add`, raise on bad
status, then — only after success — honour `set_as_default` by updating
the session default identifier/category, and return the parsed registry
snapshot next to the (possibly updated) session state. -/
def load_model_inner (self : ClientState) (model_id : String) (model_type : ModelType)
    (set_as_default : Bool) (outcome : NetworkOutcome) :
    ClientState × Except PyError Json :=
  match outcome with
  | NetworkOutcome.connectionFailure msg =>
      (self, Except.error (PyError.connectionError msg))
  | NetworkOutcome.response r =>
      match raise_for_status r with
      | Except.error e => (self, Except.error e)
      | Except.ok _ =>
          let response_payload := r.json
          if set_as_default then
            ({ self with selected_model := some model_id, model_type := model_type },
             Except.ok response_payload)
          else
            (self, Except.ok response_payload)

/-- `load_model` as exposed (decorated with `wrap_errors`). -/
def load_model (self : ClientState) (model_id : String) (model_type : ModelType)
    (set_as_default : Bool) (outcome : NetworkOutcome) :
    ClientState × Except PyError Json :=
  let result := load_model_inner self model_id model_type set_as_default outcome
  (result.1, wrap_errors result.2)

/-- `unload_model` without its decorator: POST `/model/remove`, raise on
bad status, then — only after success — clear the session default
(back to `None` / OBJECT_DETECTION) when the unloaded id equals the
current default. -/
def unload_model_inner (self : ClientState) (model_id : String)
    (outcome : NetworkOutcome) : ClientState × Except PyError Json :=
  match outcome with
  | NetworkOutcome.connectionFailure msg =>
      (self, Except.error (PyError.connectionError msg))
  | NetworkOutcome.response r =>
      match raise_for_status r with
      | Except.error e => (self, Except.error e)
      | Except.ok _ =>
          let response_payload := r.json
          if some model_id = self.selected_model then
            ({ self with selected_model := none, model_type := ModelType.objectDetection },
             Except.ok response_payload)
          else
            (self, Except.ok response_payload)

/-- `unload_model` as exposed (decorated with `wrap_errors`). -/
def unload_model (self : ClientState) (model_id : String)
    (outcome : NetworkOutcome) : ClientState × Except PyError Json :=
  let result := unload_model_inner self model_id outcome
  (result.1, wrap_errors result.2)

/-- `unload_all_models` without its decorator: POST `/model/clear`, raise
on bad status, then unconditionally clear the session default
identifier/category. -/
def unload_all_models_inner (self : ClientState) (outcome : NetworkOutcome) :
    ClientState × Except PyError Json :=
  match outcome with
  | NetworkOutcome.connectionFailure msg =>
      (self, Except.error (PyError.connectionError msg))
  | NetworkOutcome.response r =>
      match raise_for_status r with
      | Except.error e => (self, Except.error e)
      | Except.ok _ =>
          let response_payload := r.json
          ({ self with selected_model := none, model_type := ModelType.objectDetection },
           Except.ok response_payload)

/-- `unload_all_models` as exposed (decorated with `wrap_errors`). -/
def unload_all_models (self : ClientState) (outcome : NetworkOutcome) :
    ClientState × Except PyError Json :=
  let result := unload_all_models_inner self outcome
  (result.1, wrap_errors result.2)

/-- `NEW_INFERENCE_ENDPOINTS`: the fixed category → endpoint-path table
(one entry per category). -/
def NEW_INFERENCE_ENDPOINTS : ModelType → String
  | ModelType.instanceSegmentation => "/infer/instance_segmentation"
  | ModelType.objectDetection => "/infer/object_detection"
  | ModelType.classification => "/infer/classification"

/-- `unwrap_single_element_list`: `sequence[0]` when `len(sequence) == 1`,
the sequence itself otherwise. -/
def unwrap_single_element_list {T : Type} (sequence : List T) : T ⊕ List T :=
  if h : sequence.length = 1 then
    Sum.inl (sequence.get ⟨0, by omega⟩)
  else
    Sum.inr sequence

/-- One POST issued by the legacy builder: the two-segment path URL and
the encoded input sent as the raw body (`data=element`; the credential
and legacy call parameters travel as query parameters, which no claim
inspects). -/
structure LegacyRequest where
  url : String
  body : String
deriving DecidableEq, Repr

/-- One POST issued by the new builder: endpoint URL and the JSON payload
fields a claim can observe (`api_key`, `model_id`, the per-element
`image.value`; the merged call parameters are opaque). -/
structure NewRequest where
  url : String
  api_key : String
  model_id : Option String
  image_value : String
deriving DecidableEq, Repr

/-- Normalisation of one successful legacy response (lines 226-233): a
JPEG body becomes `{"visualization": decoded}` via the
`transform_visualisation_bytes` collaborator `tvb`, anything else is the
parsed JSON body unchanged. -/
def legacy_response_document (output_format : String)
    (tvb : String → String → Json) (r : HTTPResponse) : Json :=
  if r.content_is_jpeg then
    Json.obj [("visualization", tvb r.content output_format)]
  else
    r.json

/-- The request loop of `infer_from_legacy_api` (lines 217-233): one POST
per encoded input, `raise_for_status` on each response, normalise, and
accumulate in input order.  Also returns the list of requests actually
issued (for the no-network-call claims). -/
def legacy_request_loop (url : String) (output_format : String)
    (tvb : String → String → Json) (server : String → NetworkOutcome) :
    List String → Except PyError (List Json) × List LegacyRequest
  | [] => (Except.ok [], [])
  | element :: rest =>
      let req : LegacyRequest := ⟨url, element⟩
      match server element with
      | NetworkOutcome.connectionFailure msg =>
          (Except.error (PyError.connectionError msg), [req])
      | NetworkOutcome.response r =>
          match raise_for_status r with
          | Except.error e => (Except.error e, [req])
          | Except.ok _ =>
              let result := legacy_response_document output_format tvb r
              match legacy_request_loop url output_format tvb server rest with
              | (Except.ok results, trace) => (Except.ok (result :: results), req :: trace)
              | (Except.error e, trace) => (Except.error e, req :: trace)

/-- `infer_from_legacy_api` (lines 199-234).  The encoded inputs are the
output of the `load_static_inference_input` collaborator (which runs
before the identifier check); `tvb` is the visualisation-decoding
collaborator; `server` is the network.  Returns the result (or raised
exception) together with the requests issued. -/
def infer_from_legacy_api (self : ClientState)
    (encoded_inference_inputs : List String) (model_id : Option String)
    (tvb : String → String → Json) (server : String → NetworkOutcome) :
    Except PyError (Json ⊕ List Json) × List LegacyRequest :=
  match pyOr model_id self.selected_model with
  | none =>
      (Except.error (PyError.attributeError "NoneType object has no attribute split"), [])
  | some model_id_to_be_used =>
      let model_id_chunks := py_split model_id_to_be_used '/'
      if model_id_chunks.length ≠ 2 then
        (Except.error (PyError.invalidModelIdentifier
          ("Invalid model identifier: " ++ pyStr model_id ++ " in use.")), [])
      else
        let url := self.api_url ++ "/" ++ model_id_chunks.getD 0 "" ++ "/"
          ++ model_id_chunks.getD 1 ""
        match legacy_request_loop url
            self.inference_configuration.output_visualisation_format tvb server
            encoded_inference_inputs with
        | (Except.ok results, trace) =>
            (Except.ok (unwrap_single_element_list results), trace)
        | (Except.error e, trace) => (Except.error e, trace)

/-- Normalisation of one successful new-mode response on a JSON object
body (lines 266-272): when `parsed_response.get("visualization")` is not
`None`, that entry is replaced in place by the decoded form produced by
the `transform_base64_visualisation` collaborator `tbv`; otherwise the
document is untouched.  Non-object bodies are returned unchanged here;
`new_response_document` accounts for the `AttributeError` Python would
actually raise on them. -/
def new_document_of (output_format : String) (tbv : Json → String → Json) :
    Json → Json
  | Json.obj fields =>
      let v := (jsonLookup fields "visualization").getD Json.null
      if v.isNull then
        Json.obj fields
      else
        Json.obj (jsonSetKey fields "visualization" (tbv v output_format))
  | j => j

/-- Normalisation of one successful new-mode response (lines 266-272),
including the `AttributeError` that `parsed_response.get` raises when the
parsed body is not a dict. -/
def new_response_document (output_format : String) (tbv : Json → String → Json)
    (parsed_response : Json) : Except PyError Json :=
  match parsed_response with
  | Json.obj fields => Except.ok (new_document_of output_format tbv (Json.obj fields))
  | _ => Except.error (PyError.attributeError "object has no attribute get")

/-- The request loop of `infer_from_new_api` (lines 257-272): one POST
per encoded input (the shared payload plus the element as
`image.value`), `raise_for_status`, parse, normalise the visualization
entry, accumulate in input order. -/
def new_request_loop (url : String) (api_key : String)
    (payload_model_id : Option String) (output_format : String)
    (tbv : Json → String → Json) (server : String → NetworkOutcome) :
    List String → Except PyError (List Json) × List NewRequest
  | [] => (Except.ok [], [])
  | element :: rest =>
      let req : NewRequest := ⟨url, api_key, payload_model_id, element⟩
      match server element with
      | NetworkOutcome.connectionFailure msg =>
          (Except.error (PyError.connectionError msg), [req])
      | NetworkOutcome.response r =>
          match raise_for_status r with
          | Except.error e => (Except.error e, [req])
          | Except.ok _ =>
              match new_response_document output_format tbv r.json with
              | Except.error e => (Except.error e, [req])
              | Except.ok parsed =>
                  match new_request_loop url api_key payload_model_id output_format
                      tbv server rest with
                  | (Except.ok results, trace) => (Except.ok (parsed :: results), req :: trace)
                  | (Except.error e, trace) => (Except.error e, req :: trace)

/-- `infer_from_new_api` (lines 236-273): resolve the payload model id
(`model_id or self.__selected_model` — no local validation), resolve the
category (`model_type or self.__model_type`), look the endpoint up in the
fixed table, then run the request loop and unwrap. -/
def infer_from_new_api (self : ClientState)
    (encoded_inference_inputs : List String) (model_type : Option ModelType)
    (model_id : Option String) (tbv : Json → String → Json)
    (server : String → NetworkOutcome) :
    Except PyError (Json ⊕ List Json) × List NewRequest :=
  let payload_model_id := pyOr model_id self.selected_model
  let model_type_in_use := model_type.getD self.model_type
  let endpoint := NEW_INFERENCE_ENDPOINTS model_type_in_use
  match new_request_loop (self.api_url ++ endpoint) self.api_key payload_model_id
      self.inference_configuration.output_visualisation_format tbv server
      encoded_inference_inputs with
  | (Except.ok results, trace) =>
      (Except.ok (unwrap_single_element_list results), trace)
  | (Except.error e, trace) => (Except.error e, trace)

/-- A request issued by `predict`, in either protocol mode. -/
inductive IssuedRequest where
  | legacyCall : LegacyRequest → IssuedRequest
  | newCall : NewRequest → IssuedRequest
deriving DecidableEq, Repr

/-- `predict` (lines 181-197): dispatch on the session's protocol mode to
the matching builder; the `wrap_errors` decorator translates any
transport/status exception escaping the builders. -/
def predict (self : ClientState) (encoded_inference_inputs : List String)
    (model_type : Option ModelType) (model_id : Option String)
    (tvb : String → String → Json) (tbv : Json → String → Json)
    (server : String → NetworkOutcome) :
    Except PyError (Json ⊕ List Json) × List IssuedRequest :=
  match self.client_mode with
  | HTTPClientMode.legacy =>
      let result := infer_from_legacy_api self encoded_inference_inputs model_id tvb server
      (wrap_errors result.1, result.2.map IssuedRequest.legacyCall)
  | HTTPClientMode.new =>
      let result := infer_from_new_api self encoded_inference_inputs model_type model_id
        tbv server
      (wrap_errors result.1, result.2.map IssuedRequest.newCall)

/-- One `next()` on the generator returned by `predict_on_stream` (lines
164-179): pull one frame from the source, run one inference call on it,
yield the `(frame, prediction)` pair and suspend with the rest of the
source untouched.  `predict_fn` is the per-frame `self.predict` call with
`model_type` / `model_id` fixed. -/
def predict_on_stream_step {Frame R : Type} (predict_fn : Frame → R) :
    List Frame → Option ((Frame × R) × List Frame)
  | [] => none
  | frame :: rest => some ((frame, predict_fn frame), rest)

/-- The whole sequence produced by `predict_on_stream` on a finite frame
source: the step above, driven to exhaustion. -/
def predict_on_stream {Frame R : Type} (predict_fn : Frame → R) :
    List Frame → List (Frame × R)
  | [] => []
  | frame :: rest => (frame, predict_fn frame) :: predict_on_stream predict_fn rest

/-- Whether a call outcome makes the decorated registry operations raise:
a transport failure, or a response `raise_for_status` rejects. -/
def outcome_fails : NetworkOutcome → Bool
  | NetworkOutcome.connectionFailure _ => true
  | NetworkOutcome.response r => decide (400 ≤ r.status_code ∧ r.status_code < 600)

/-- Whether a call result is a raised exception. -/
def raises {α : Type} : Except PyError α → Bool
  | Except.error _ => true
  | Except.ok _ => false

/-! Concrete fixtures used by witnesses and counterexamples. -/

/-- A default configuration (JPEG output format). -/
def sampleConfig : InferenceConfiguration := ⟨"jpeg"⟩

/-- A freshly constructed legacy-mode client with no default model. -/
def legacyClient : ClientState :=
  ⟨"http://api", "key", sampleConfig, HTTPClientMode.legacy, ModelType.objectDetection, none⟩

/-- A freshly constructed new-mode client with no default model. -/
def newClient : ClientState :=
  ⟨"http://api", "key", sampleConfig, HTTPClientMode.new, ModelType.objectDetection, none⟩

/-- A legacy-mode client whose session default identifier is `coins/3`. -/
def legacyClientWithDefault : ClientState :=
  ⟨"http://api", "key", sampleConfig, HTTPClientMode.legacy, ModelType.objectDetection,
   some "coins/3"⟩

/-- A successful JSON response. -/
def okJsonResponse : HTTPResponse :=
  ⟨200, some "application/json", "body", "bytes", Json.obj [("ok", Json.str "yes")], false⟩

/-- A 404 response that carries no `Content-Type` header at all. -/
def noContentTypeResponse : HTTPResponse :=
  ⟨404, none, "not found", "not found", Json.null, false⟩

/-- A 300 response: non-2xx, yet `raise_for_status` does not raise. -/
def redirectResponse : HTTPResponse :=
  ⟨300, some "text/plain", "multiple choices", "multiple choices", Json.null, false⟩

/-- A 300 response carrying no `Content-Type` header at all: non-2xx,
not raised by `raise_for_status`, never reaching the error boundary. -/
def redirectNoContentTypeResponse : HTTPResponse :=
  ⟨300, none, "multiple choices", "multiple choices", Json.null, false⟩

/-- A 404 response with a JSON body carrying a `message` field. -/
def jsonErrorResponse : HTTPResponse :=
  ⟨404, some "application/json", "raw", "raw", Json.obj [("message", Json.str "boom")], false⟩

/-- A server answering every request with `okJsonResponse`. -/
def okServer : String → NetworkOutcome := fun _ => NetworkOutcome.response okJsonResponse

/-- A server echoing the posted element back inside a JSON body. -/
def echoResponse (element : String) : HTTPResponse :=
  ⟨200, some "application/json", element, element, Json.obj [("echo", Json.str element)], false⟩

/-- The echo server as a plain response function. -/
def echoServer : String → NetworkOutcome := fun e => NetworkOutcome.response (echoResponse e)

/-- A stand-in for the `transform_visualisation_bytes` collaborator. -/
def decodeBytes : String → String → Json :=
  fun content fmt => Json.str ("decoded-bytes:" ++ content ++ ":" ++ fmt)

/-- A stand-in for the `transform_base64_visualisation` collaborator. -/
def decodeBase64 : Json → String → Json :=
  fun _ fmt => Json.str ("decoded-b64:" ++ fmt)

/-! Shared helper lemmas. -/

/-- `raise_for_status` accepts any status below 400. -/
theorem raise_for_status_ok_of_lt {r : HTTPResponse} (h : r.status_code < 400) :
    raise_for_status r = Except.ok () := by
  unfold raise_for_status
  rw [if_neg]
  omega

/-- A one-element sequence is unwrapped to its bare element. -/
theorem unwrap_single_element_list_singleton {T : Type} (x : T) :
    unwrap_single_element_list [x] = Sum.inl x := rfl

/-- A sequence of two or more elements is returned as is. -/
theorem unwrap_single_element_list_of_two_le {T : Type} (l : List T)
    (h : 2 ≤ l.length) : unwrap_single_element_list l = Sum.inr l := by
  unfold unwrap_single_element_list
  rw [dif_neg]
  omega

/-- The empty sequence is returned as is. -/
theorem unwrap_single_element_list_nil {T : Type} :
    unwrap_single_element_list ([] : List T) = Sum.inr [] := rfl

/-- On an object body, `new_response_document` succeeds with
`new_document_of`. -/
theorem new_response_document_of_isObj (fmt : String) (tbv : Json → String → Json)
    {j : Json} (h : j.isObj = true) :
    new_response_document fmt tbv j = Except.ok (new_document_of fmt tbv j) := by
  cases j with
  | obj fields => rfl
  | null => simp [Json.isObj] at h
  | str s => simp [Json.isObj] at h

/-- When every response is a success, the legacy request loop returns one
normalized document per input, in input order, and issues exactly one
request per input. -/
theorem legacy_request_loop_all_ok (url fmt : String) (tvb : String → String → Json)
    (srv : String → HTTPResponse) (inputs : List String)
    (hok : ∀ e ∈ inputs, (srv e).status_code < 400) :
    legacy_request_loop url fmt tvb (fun e => NetworkOutcome.response (srv e)) inputs
      = (Except.ok (inputs.map (fun e => legacy_response_document fmt tvb (srv e))),
         inputs.map (fun e => (⟨url, e⟩ : LegacyRequest))) := by
  induction inputs with
  | nil => rfl
  | cons e rest ih =>
      have h1 : raise_for_status (srv e) = Except.ok () :=
        raise_for_status_ok_of_lt (hok e (List.mem_cons_self _ _))
      have h2 := ih (fun x hx => hok x (List.mem_cons_of_mem _ hx))
      simp [legacy_request_loop, h1, h2]

/-- When every response is a success with an object body, the new-mode
request loop returns one normalized document per input, in input order,
and issues exactly one request per input (all carrying the same resolved
payload model id). -/
theorem new_request_loop_all_ok (url key : String) (pmid : Option String)
    (fmt : String) (tbv : Json → String → Json) (srv : String → HTTPResponse)
    (inputs : List String)
    (hok : ∀ e ∈ inputs, (srv e).status_code < 400)
    (hobj : ∀ e ∈ inputs, (srv e).json.isObj = true) :
    new_request_loop url key pmid fmt tbv (fun e => NetworkOutcome.response (srv e)) inputs
      = (Except.ok (inputs.map (fun e => new_document_of fmt tbv (srv e).json)),
         inputs.map (fun e => (⟨url, key, pmid, e⟩ : NewRequest))) := by
  induction inputs with
  | nil => rfl
  | cons e rest ih =>
      have h1 : raise_for_status (srv e) = Except.ok () :=
        raise_for_status_ok_of_lt (hok e (List.mem_cons_self _ _))
      have h2 : new_response_document fmt tbv (srv e).json
          = Except.ok (new_document_of fmt tbv (srv e).json) :=
        new_response_document_of_isObj fmt tbv (hobj e (List.mem_cons_self _ _))
      have h3 := ih (fun x hx => hok x (List.mem_cons_of_mem _ hx))
        (fun x hx => hobj x (List.mem_cons_of_mem _ hx))
      simp [new_request_loop, h1, h2, h3]

/-- The stream adapter is the element-wise pairing of each frame with its
prediction. -/
theorem predict_on_stream_eq_map {Frame R : Type} (p : Frame → R)
    (frames : List Frame) :
    predict_on_stream p frames = frames.map (fun f => (f, p f)) := by
  induction frames with
  | nil => rfl
  | cons f rest ih => simp [predict_on_stream, ih]

/-- Every request the new-mode loop issues carries the loop's resolved
payload model id. -/
theorem new_request_loop_trace_mem (url key : String) (pmid : Option String)
    (fmt : String) (tbv : Json → String → Json) (server : String → NetworkOutcome) :
    ∀ (inputs : List String) (req : NewRequest),
      req ∈ (new_request_loop url key pmid fmt tbv server inputs).2 →
      req.model_id = pmid := by
  intro inputs
  induction inputs with
  | nil =>
      intro req h
      simp [new_request_loop] at h
  | cons e rest ih =>
      intro req h
      cases hs : server e with
      | connectionFailure msg =>
          simp only [new_request_loop, hs] at h
          simp at h
          subst h
          rfl
      | response r =>
          cases hr : raise_for_status r with
          | error err =>
              simp only [new_request_loop, hs, hr] at h
              simp at h
              subst h
              rfl
          | ok u =>
              cases hd : new_response_document fmt tbv r.json with
              | error err =>
                  simp only [new_request_loop, hs, hr, hd] at h
                  simp at h
                  subst h
                  rfl
              | ok parsed =>
                  rcases hrec : new_request_loop url key pmid fmt tbv server rest
                    with ⟨res, trace⟩
                  cases res with
                  | ok results =>
                      simp only [new_request_loop, hs, hr, hd, hrec] at h
                      simp at h
                      rcases h with h | h
                      · subst h; rfl
                      · exact ih req (by rw [hrec]; exact h)
                  | error err =>
                      simp only [new_request_loop, hs, hr, hd, hrec] at h
                      simp at h
                      rcases h with h | h
                      · subst h; rfl
                      · exact ih req (by rw [hrec]; exact h)

/-- The new-mode loop issues at least one request on a nonempty input
batch (the first POST happens before any response can fail). -/
theorem new_request_loop_trace_ne_nil (url key : String) (pmid : Option String)
    (fmt : String) (tbv : Json → String → Json) (server : String → NetworkOutcome)
    (e : String) (rest : List String) :
    (new_request_loop url key pmid fmt tbv server (e :: rest)).2 ≠ [] := by
  cases hs : server e with
  | connectionFailure msg => simp [new_request_loop, hs]
  | response r =>
      cases hr : raise_for_status r with
      | error err => simp [new_request_loop, hs, hr]
      | ok u =>
          cases hd : new_response_document fmt tbv r.json with
          | error err => simp [new_request_loop, hs, hr, hd]
          | ok parsed =>
              rcases hrec : new_request_loop url key pmid fmt tbv server rest
                with ⟨res, trace⟩
              cases res <;> simp [new_request_loop, hs, hr, hd, hrec]

/-- The requests `infer_from_new_api` issues are exactly the requests of
its inner loop, whatever the call's outcome. -/
theorem infer_from_new_api_trace (self : ClientState)
    (inputs : List String) (model_type : Option ModelType)
    (model_id : Option String) (tbv : Json → String → Json)
    (server : String → NetworkOutcome) :
    (infer_from_new_api self inputs model_type model_id tbv server).2
      = (new_request_loop
          (self.api_url ++ NEW_INFERENCE_ENDPOINTS (model_type.getD self.model_type))
          self.api_key (pyOr model_id self.selected_model)
          self.inference_configuration.output_visualisation_format tbv server
          inputs).2 := by
  unfold infer_from_new_api
  rcases hrec : new_request_loop
      (self.api_url ++ NEW_INFERENCE_ENDPOINTS (model_type.getD self.model_type))
      self.api_key (pyOr model_id self.selected_model)
      self.inference_configuration.output_visualisation_format tbv server inputs
    with ⟨res, trace⟩
  cases res <;> simp [hrec]

/-- The exposed `wrap_errors` boundary maps raised exceptions to raised
exceptions and successful returns to themselves. -/
theorem raises_wrap_errors {α : Type} (x : Except PyError α) :
    raises (wrap_errors x) = raises x := by
  cases x with
  | ok a => rfl
  | error e =>
      cases e with
      | httpError r =>
          cases hct : r.content_type with
          | none => simp [wrap_errors, hct, raises]
          | some ct =>
              by_cases hj : py_in_str "application/json" ct = true
              · cases hg : pyDictGet r.json "message" with
                | ok m => simp [wrap_errors, hct, hj, hg, raises]
                | error m => simp [wrap_errors, hct, hj, hg, raises]
              · simp only [Bool.not_eq_true] at hj
                simp [wrap_errors, hct, hj, raises]
      | connectionError m => rfl
      | httpCallErrorError a b c => rfl
      | httpClientError m => rfl
      | invalidModelIdentifier m => rfl
      | attributeError m => rfl
      | typeError m => rfl

/-! Claim theorems. -/

/-- C1 counterexample: the resolved identifier `a/` does not decompose
into two non-empty segments separated by `/` (its second segment is
empty), yet the legacy-mode call does not raise InvalidModelIdentifier:
it issues a network request and returns the server's document. -/
theorem legacy_empty_segment_identifier_not_rejected_cex :
    py_split "a/" '/' = ["a", ""]
    ∧ infer_from_legacy_api legacyClient ["img"] (some "a/") decodeBytes okServer
        = (Except.ok (Sum.inl (Json.obj [("ok", Json.str "yes")])),
           [⟨"http://api/a/", "img"⟩]) :=
  ⟨rfl, rfl⟩

/-- C1 (amended): for every legacy-mode inference call whose resolved
model identifier does not split on `/` into exactly two segments
(segments may be empty), the call raises InvalidModelIdentifier as a
local validation error before any network call is issued. -/
theorem legacy_invalid_identifier_raises_before_network
    (self : ClientState) (inputs : List String) (model_id : Option String)
    (tvb : String → String → Json) (server : String → NetworkOutcome)
    (s : String) (hres : pyOr model_id self.selected_model = some s)
    (hsplit : (py_split s '/').length ≠ 2) :
    infer_from_legacy_api self inputs model_id tvb server
      = (Except.error (PyError.invalidModelIdentifier
          ("Invalid model identifier: " ++ pyStr model_id ++ " in use.")), []) := by
  simp only [infer_from_legacy_api, hres]
  rw [if_pos hsplit]

/-- C1 witness: the three-segment identifier `a/b/c` is rejected locally
with no request issued. -/
theorem legacy_invalid_identifier_raises_before_network_witness :
    infer_from_legacy_api legacyClient ["img"] (some "a/b/c") decodeBytes okServer
      = (Except.error (PyError.invalidModelIdentifier
          "Invalid model identifier: a/b/c in use."), []) :=
  legacy_invalid_identifier_raises_before_network legacyClient ["img"] (some "a/b/c")
    decodeBytes okServer "a/b/c" rfl (by decide)

/-- C2 counterexample: a new-mode call with neither a per-call model
identifier nor a session default surfaces no error at request-build
time: the request is sent with a null `model_id` and the call succeeds. -/
theorem new_api_sends_null_model_identifier_cex :
    pyOr none newClient.selected_model = none
    ∧ infer_from_new_api newClient ["img"] none none decodeBase64 okServer
        = (Except.ok (Sum.inl (Json.obj [("ok", Json.str "yes")])),
           [⟨"http://api/infer/object_detection", "key", none, "img"⟩]) :=
  ⟨rfl, rfl⟩

/-- C2 (amended): when neither a per-call model identifier nor a session
default is set, a legacy-mode call fails locally with an untyped
AttributeError (splitting `None`) before any network call, while a
new-mode call performs no local check at all: every request it issues
carries a null `model_id`, and on a nonempty batch at least one request
is issued. -/
theorem missing_model_identifier_behaviour
    (self : ClientState) (inputs : List String) (model_type : Option ModelType)
    (model_id : Option String) (tvb : String → String → Json)
    (tbv : Json → String → Json) (server : String → NetworkOutcome)
    (hres : pyOr model_id self.selected_model = none) :
    infer_from_legacy_api self inputs model_id tvb server
      = (Except.error (PyError.attributeError "NoneType object has no attribute split"), [])
    ∧ (∀ req ∈ (infer_from_new_api self inputs model_type model_id tbv server).2,
        req.model_id = none)
    ∧ (inputs ≠ [] →
        (infer_from_new_api self inputs model_type model_id tbv server).2 ≠ []) := by
  refine ⟨?_, ?_, ?_⟩
  · simp only [infer_from_legacy_api, hres]
  · intro req hreq
    rw [infer_from_new_api_trace] at hreq
    have h := new_request_loop_trace_mem
      (self.api_url ++ NEW_INFERENCE_ENDPOINTS (model_type.getD self.model_type))
      self.api_key (pyOr model_id self.selected_model)
      self.inference_configuration.output_visualisation_format tbv server
      inputs req hreq
    rw [hres] at h
    exact h
  · intro hne
    rw [infer_from_new_api_trace]
    cases inputs with
    | nil => exact absurd rfl hne
    | cons e rest => exact new_request_loop_trace_ne_nil _ _ _ _ _ _ _ _

/-- C2 witness: concrete client with no default, no per-call identifier:
the legacy call raises the untyped AttributeError with no request. -/
theorem missing_model_identifier_behaviour_witness :
    pyOr none newClient.selected_model = none
    ∧ infer_from_legacy_api newClient ["img"] none decodeBytes okServer
        = (Except.error (PyError.attributeError "NoneType object has no attribute split"), []) :=
  ⟨rfl, (missing_model_identifier_behaviour newClient ["img"] none none decodeBytes
      decodeBase64 okServer rfl).1⟩

/-- C3 counterexample: two non-2xx answers that do not produce an
HTTPCallErrorError.  A 404 carrying no Content-Type header makes the
error boundary itself fail with TypeError; a 300 response is not raised
at all: the call returns the parsed body as a success. -/
theorem non_2xx_without_remote_call_failure_cex :
    predict legacyClient ["img"] none (some "coins/3") decodeBytes decodeBase64
        (fun _ => NetworkOutcome.response noContentTypeResponse)
      = (Except.error (PyError.typeError "argument of type NoneType is not iterable"),
         [IssuedRequest.legacyCall ⟨"http://api/coins/3", "img"⟩])
    ∧ predict legacyClient ["img"] none (some "coins/3") decodeBytes decodeBase64
        (fun _ => NetworkOutcome.response redirectResponse)
      = (Except.ok (Sum.inl Json.null),
         [IssuedRequest.legacyCall ⟨"http://api/coins/3", "img"⟩]) :=
  ⟨rfl, rfl⟩

/-- C3 (amended): for every outbound call answered with a 4xx/5xx status
whose response carries a Content-Type header, the raised exception is an
HTTPCallErrorError carrying that status code; its message equals the raw
response body text when the header does not contain `application/json`,
and equals the body's JSON `message` field (null when absent) when it
does and the body is a JSON object. -/
theorem remote_call_failure_status_and_message
    (r : HTTPResponse) (ct : String)
    (hstatus : 400 ≤ r.status_code ∧ r.status_code < 600)
    (hct : r.content_type = some ct) :
    raise_for_status r = Except.error (PyError.httpError r)
    ∧ (py_in_str "application/json" ct = false →
        wrap_errors (Except.error (PyError.httpError r) : Except PyError (Json ⊕ List Json))
          = Except.error (PyError.httpCallErrorError (http_error_description r)
              r.status_code (Json.str r.text)))
    ∧ (∀ fields, py_in_str "application/json" ct = true → r.json = Json.obj fields →
        wrap_errors (Except.error (PyError.httpError r) : Except PyError (Json ⊕ List Json))
          = Except.error (PyError.httpCallErrorError (http_error_description r)
              r.status_code ((jsonLookup fields "message").getD Json.null))) := by
  refine ⟨?_, ?_, ?_⟩
  · unfold raise_for_status
    rw [if_pos hstatus]
  · intro hj
    simp [wrap_errors, hct, hj]
  · intro fields hj hobj
    simp [wrap_errors, hct, hj, hobj, pyDictGet]

/-- C3 witness: a 404 JSON response with a `message` field is translated
to HTTPCallErrorError 404 with that message. -/
theorem remote_call_failure_status_and_message_witness :
    (400 ≤ jsonErrorResponse.status_code ∧ jsonErrorResponse.status_code < 600)
    ∧ wrap_errors (Except.error (PyError.httpError jsonErrorResponse)
          : Except PyError (Json ⊕ List Json))
      = Except.error (PyError.httpCallErrorError (http_error_description jsonErrorResponse)
          jsonErrorResponse.status_code
          ((jsonLookup [("message", Json.str "boom")] "message").getD Json.null)) :=
  ⟨by decide, (remote_call_failure_status_and_message jsonErrorResponse "application/json"
      (by decide) rfl).2.2 [("message", Json.str "boom")] (by decide) rfl⟩

/-- C4: in both protocol modes a successful call produces one normalized
document per encoded input in exactly the input order, and the ordered
sequence is unwrapped to the bare document exactly when the batch has one
element and kept as the full sequence for two or more. -/
theorem predict_batch_order_and_unwrapping
    (self : ClientState) (inputs : List String) (model_type : Option ModelType)
    (model_id : Option String) (tvb : String → String → Json)
    (tbv : Json → String → Json) (srv : String → HTTPResponse) (s : String)
    (hres : pyOr model_id self.selected_model = some s)
    (hsplit : (py_split s '/').length = 2)
    (hok : ∀ e ∈ inputs, (srv e).status_code < 400)
    (hobj : ∀ e ∈ inputs, (srv e).json.isObj = true) :
    (infer_from_legacy_api self inputs model_id tvb
        (fun e => NetworkOutcome.response (srv e))).1
      = Except.ok (unwrap_single_element_list (inputs.map (fun e =>
          legacy_response_document
            self.inference_configuration.output_visualisation_format tvb (srv e))))
    ∧ (infer_from_new_api self inputs model_type model_id tbv
        (fun e => NetworkOutcome.response (srv e))).1
      = Except.ok (unwrap_single_element_list (inputs.map (fun e =>
          new_document_of
            self.inference_configuration.output_visualisation_format tbv (srv e).json)))
    ∧ (∀ (x : Json), unwrap_single_element_list [x] = Sum.inl x)
    ∧ (∀ (l : List Json), 2 ≤ l.length → unwrap_single_element_list l = Sum.inr l) := by
  refine ⟨?_, ?_, fun x => rfl, fun l h => unwrap_single_element_list_of_two_le l h⟩
  · simp only [infer_from_legacy_api, hres]
    rw [if_neg (not_not_intro hsplit)]
    rw [legacy_request_loop_all_ok _ _ tvb srv inputs hok]
  · simp only [infer_from_new_api]
    rw [new_request_loop_all_ok _ _ _ _ tbv srv inputs hok hobj]

/-- C4 witness: a two-element legacy batch against the echo server is
returned as the ordered two-element sequence. -/
theorem predict_batch_order_and_unwrapping_witness :
    (infer_from_legacy_api legacyClientWithDefault ["i1", "i2"] none decodeBytes
        (fun e => NetworkOutcome.response (echoResponse e))).1
      = Except.ok (unwrap_single_element_list (["i1", "i2"].map (fun e =>
          legacy_response_document
            legacyClientWithDefault.inference_configuration.output_visualisation_format
            decodeBytes (echoResponse e)))) :=
  (predict_batch_order_and_unwrapping legacyClientWithDefault ["i1", "i2"] none none
    decodeBytes decodeBase64 echoResponse "coins/3" rfl (by decide) (by decide)
    (by decide)).1

/-- C5: new-mode response normalisation: a `visualization` entry with a
non-null value is replaced in place by the decoded form of its content in
the configured output representation; otherwise — the entry absent, or
present with the null value Python's `.get` cannot distinguish from
absence — the parsed document is returned unchanged. -/
theorem new_response_visualization_replacement
    (fmt : String) (tbv : Json → String → Json) (fields : List (String × Json)) :
    (∀ v, jsonLookup fields "visualization" = some v → v.isNull = false →
        new_document_of fmt tbv (Json.obj fields)
          = Json.obj (jsonSetKey fields "visualization" (tbv v fmt)))
    ∧ (jsonLookup fields "visualization" = none →
        new_document_of fmt tbv (Json.obj fields) = Json.obj fields)
    ∧ (jsonLookup fields "visualization" = some Json.null →
        new_document_of fmt tbv (Json.obj fields) = Json.obj fields)
    ∧ new_response_document fmt tbv (Json.obj fields)
        = Except.ok (new_document_of fmt tbv (Json.obj fields)) := by
  refine ⟨?_, ?_, ?_, rfl⟩
  · intro v hv hnull
    simp [new_document_of, hv, hnull]
  · intro hv
    simp [new_document_of, hv, Json.isNull]
  · intro hv
    simp [new_document_of, hv, Json.isNull]

/-- C5 witness: a non-null visualization entry is decoded and replaced in
place. -/
theorem new_response_visualization_replacement_witness :
    new_document_of "jpeg" decodeBase64 (Json.obj [("visualization", Json.str "payload")])
      = Json.obj (jsonSetKey [("visualization", Json.str "payload")] "visualization"
          (decodeBase64 (Json.str "payload") "jpeg")) :=
  (new_response_visualization_replacement "jpeg" decodeBase64
    [("visualization", Json.str "payload")]).1 (Json.str "payload") rfl rfl

/-- C6 counterexample: a 300 response is non-2xx, yet neither registry
call treats it as a failure: `raise_for_status` does not raise, so
`load_model` with `set_as_default` installs the new session default and
`unload_model` of the current default clears it — the Session State is
not the same after these non-2xx calls. -/
theorem non_2xx_redirect_mutates_registry_state_cex :
    load_model legacyClient "m" ModelType.classification true
        (NetworkOutcome.response redirectResponse)
      = ({ legacyClient with
           selected_model := some "m",
           model_type := ModelType.classification }, Except.ok Json.null)
    ∧ unload_model legacyClientWithDefault "coins/3"
        (NetworkOutcome.response redirectResponse)
      = ({ legacyClientWithDefault with
           selected_model := none,
           model_type := ModelType.objectDetection }, Except.ok Json.null) :=
  ⟨rfl, rfl⟩

/-- C6 (amended): a load_model or unload_model call that fails — transport
failure or a 4xx/5xx status — raises, and the session's default model
identifier and category are exactly as they were before the call (a
non-2xx 3xx status is not a failure: the call proceeds and may mutate
the state). -/
theorem failed_registry_calls_leave_state_unchanged
    (self : ClientState) (model_id : String) (model_type : ModelType)
    (set_as_default : Bool) (outcome : NetworkOutcome)
    (hfail : outcome_fails outcome = true) :
    (load_model self model_id model_type set_as_default outcome).1 = self
    ∧ raises (load_model self model_id model_type set_as_default outcome).2 = true
    ∧ (unload_model self model_id outcome).1 = self
    ∧ raises (unload_model self model_id outcome).2 = true := by
  cases outcome with
  | connectionFailure msg => exact ⟨rfl, rfl, rfl, rfl⟩
  | response r =>
      have hr : raise_for_status r = Except.error (PyError.httpError r) := by
        unfold outcome_fails at hfail
        unfold raise_for_status
        rw [if_pos (of_decide_eq_true hfail)]
      refine ⟨?_, ?_, ?_, ?_⟩
      · simp [load_model, load_model_inner, hr]
      · simp only [load_model, load_model_inner, hr, raises_wrap_errors]
        rfl
      · simp [unload_model, unload_model_inner, hr]
      · simp only [unload_model, unload_model_inner, hr, raises_wrap_errors]
        rfl

/-- C6 witness: a connection failure during load_model leaves a session
with a default model untouched. -/
theorem failed_registry_calls_leave_state_unchanged_witness :
    outcome_fails (NetworkOutcome.connectionFailure "refused") = true
    ∧ (load_model legacyClientWithDefault "m" ModelType.classification true
        (NetworkOutcome.connectionFailure "refused")).1 = legacyClientWithDefault :=
  ⟨rfl, (failed_registry_calls_leave_state_unchanged legacyClientWithDefault "m"
      ModelType.classification true (NetworkOutcome.connectionFailure "refused") rfl).1⟩

/-- C7: on success, load_model with set_as_default sets the session
default identifier/category to the loaded model's; unload_model clears
them (back to None / OBJECT_DETECTION) exactly when the unloaded id
equals the current default and leaves the state untouched otherwise; and
unload_all_models unconditionally clears both, regardless of prior
state. -/
theorem registry_success_state_effects
    (self : ClientState) (model_id : String) (model_type : ModelType)
    (r : HTTPResponse) (hok : r.status_code < 400) :
    (load_model self model_id model_type true (NetworkOutcome.response r)).1
      = { self with selected_model := some model_id, model_type := model_type }
    ∧ (self.selected_model = some model_id →
        (unload_model self model_id (NetworkOutcome.response r)).1
          = { self with
              selected_model := none,
              model_type := ModelType.objectDetection })
    ∧ (self.selected_model ≠ some model_id →
        (unload_model self model_id (NetworkOutcome.response r)).1 = self)
    ∧ (unload_all_models self (NetworkOutcome.response r)).1
      = { self with
          selected_model := none,
          model_type := ModelType.objectDetection } := by
  have hr := raise_for_status_ok_of_lt hok
  refine ⟨?_, ?_, ?_, ?_⟩
  · simp [load_model, load_model_inner, hr]
  · intro h
    simp [unload_model, unload_model_inner, hr, h]
  · intro h
    simp only [unload_model, unload_model_inner, hr]
    rw [if_neg (fun hc => h hc.symm)]
  · simp [unload_all_models, unload_all_models_inner, hr]

/-- C7 witness: a successful load_model with set_as_default installs the
loaded model as the session default. -/
theorem registry_success_state_effects_witness :
    okJsonResponse.status_code < 400
    ∧ (load_model legacyClient "coins/3" ModelType.classification true
        (NetworkOutcome.response okJsonResponse)).1
      = { legacyClient with
          selected_model := some "coins/3",
          model_type := ModelType.classification } :=
  ⟨by decide, (registry_success_state_effects legacyClient "coins/3"
      ModelType.classification okJsonResponse (by decide)).1⟩

/-- C8: on a finite source of K frames the stream adapter yields exactly
K pairs, the i-th pair holding the i-th source frame with its prediction,
in source order; each generator step consumes exactly one frame and
yields exactly one pair, leaving the rest of the source untouched, and
the whole sequence is that single step driven to exhaustion. -/
theorem predict_on_stream_pairs_in_order_one_at_a_time
    {Frame R : Type} (predict_fn : Frame → R) (frames : List Frame) :
    (predict_on_stream predict_fn frames).length = frames.length
    ∧ (∀ i, (predict_on_stream predict_fn frames).get? i
        = (frames.get? i).map (fun f => (f, predict_fn f)))
    ∧ predict_on_stream_step predict_fn ([] : List Frame) = none
    ∧ (∀ (frame : Frame) (rest : List Frame),
        predict_on_stream_step predict_fn (frame :: rest)
          = some ((frame, predict_fn frame), rest))
    ∧ (∀ fs : List Frame, predict_on_stream predict_fn fs
        = match predict_on_stream_step predict_fn fs with
          | none => []
          | some (pair, rest) => pair :: predict_on_stream predict_fn rest) := by
  refine ⟨?_, ?_, rfl, fun frame rest => rfl, ?_⟩
  · rw [predict_on_stream_eq_map]
    exact List.length_map _ _
  · intro i
    rw [predict_on_stream_eq_map]
    simp
  · intro fs
    cases fs <;> rfl

/-- C9: an input batch that encodes to zero elements yields the empty
sequence — not a bare document, not an error — with no request issued, in
both protocol modes (given a legacy identifier that passes the local
format check). -/
theorem empty_batch_returns_empty_sequence
    (self : ClientState) (model_type : Option ModelType) (model_id : Option String)
    (tvb : String → String → Json) (tbv : Json → String → Json)
    (server : String → NetworkOutcome) (s : String)
    (hres : pyOr model_id self.selected_model = some s)
    (hsplit : (py_split s '/').length = 2) :
    infer_from_legacy_api self [] model_id tvb server
      = (Except.ok (Sum.inr []), [])
    ∧ infer_from_new_api self [] model_type model_id tbv server
      = (Except.ok (Sum.inr []), []) := by
  constructor
  · simp only [infer_from_legacy_api, hres]
    rw [if_neg (not_not_intro hsplit)]
    rfl
  · rfl

/-- C9 witness: the empty batch on a client with default `coins/3`. -/
theorem empty_batch_returns_empty_sequence_witness :
    infer_from_legacy_api legacyClientWithDefault [] none decodeBytes okServer
      = (Except.ok (Sum.inr []), []) :=
  (empty_batch_returns_empty_sequence legacyClientWithDefault none none decodeBytes
    decodeBase64 okServer "coins/3" rfl (by decide)).1

/-- C10 counterexample: a 300 response with no Content-Type header is
non-2xx, yet the error-translation boundary never engages on it:
`raise_for_status` does not raise and the call returns the parsed body
as a success — no untyped error, no RemoteCallFailure. -/
theorem non_2xx_redirect_without_content_type_succeeds_cex :
    redirectNoContentTypeResponse.content_type = none
    ∧ raise_for_status redirectNoContentTypeResponse = Except.ok ()
    ∧ predict legacyClient ["img"] none (some "coins/3") decodeBytes decodeBase64
        (fun _ => NetworkOutcome.response redirectNoContentTypeResponse)
      = (Except.ok (Sum.inl Json.null),
         [IssuedRequest.legacyCall ⟨"http://api/coins/3", "img"⟩]) :=
  ⟨rfl, rfl, rfl⟩

/-- C10 (amended): a 4xx/5xx response carrying no Content-Type header at all defeats
the error-translation boundary itself: the content-type membership test is
applied to a missing header value, so the boundary raises an untyped
TypeError instead of an HTTPCallErrorError from the documented taxonomy. -/
theorem missing_content_type_breaks_error_translation
    (r : HTTPResponse) (hct : r.content_type = none)
    (hstatus : 400 ≤ r.status_code ∧ r.status_code < 600) :
    raise_for_status r = Except.error (PyError.httpError r)
    ∧ wrap_errors (Except.error (PyError.httpError r) : Except PyError (Json ⊕ List Json))
      = Except.error (PyError.typeError "argument of type NoneType is not iterable") := by
  constructor
  · unfold raise_for_status
    rw [if_pos hstatus]
  · simp [wrap_errors, hct]

/-- C10 witness: the concrete 404-without-Content-Type response. -/
theorem missing_content_type_breaks_error_translation_witness :
    noContentTypeResponse.content_type = none
    ∧ wrap_errors (Except.error (PyError.httpError noContentTypeResponse)
          : Except PyError (Json ⊕ List Json))
      = Except.error (PyError.typeError "argument of type NoneType is not iterable") :=
  ⟨rfl, (missing_content_type_breaks_error_translation noContentTypeResponse rfl
      (by decide)).2⟩

end Client

